import Mathlib

/-!
Verification of `vsketch/display.py`

A shallow embedding of the display module of the vsketch repository
(`src/vsketch/display.py`) together with proofs about its behaviour.

Geometry is modelled with exact rationals (`ℚ`); the matplotlib / IPython
rendering sinks are modelled by explicit scene-description values that record
exactly the data the source hands to them.
-/

/-- A 2D point, `(x, y)`. -/
abbrev Pt := ℚ × ℚ

/-- A path: an ordered sequence of 2D points (one continuous stroke). -/
abbrev VPath := List Pt

/-- A layer: an ordered sequence of paths. -/
abbrev VLayer := List VPath

/-- A document: an ordered mapping layer-id → layer (`document.layers.items()`
iteration order is insertion order, modelled as an association list). -/
abbrev VDocument := List (Nat × VLayer)

/-- An RGB color triple, as in the `COLORS` constant of the source. -/
abbrev RGB := ℚ × ℚ × ℚ

/-- The fixed 8-color palette `COLORS` of `display.py` (lines 20-29). -/
def COLORS : List RGB :=
  [(0, 0, 1),
   (0, 0.5, 0),
   (1, 0, 0),
   (0, 0.75, 0.75),
   (0, 1, 0),
   (0.75, 0, 0.75),
   (0.75, 0.75, 0),
   (0, 0, 0)]

/-- An axis-aligned bounding rectangle `(min-x, min-y, max-x, max-y)`. -/
structure Bounds where
  xmin : ℚ
  ymin : ℚ
  xmax : ℚ
  ymax : ℚ
deriving DecidableEq, Repr

/-- All points of a document, in iteration order. -/
def allPoints (doc : VDocument) : List Pt :=
  List.flatten (doc.map (fun l => List.flatten l.2))

/-- Modelled from the spec: `Document.bounds()` is provided by the external
vpype library, not by this repository.  Per the spec's data model, it is the
axis-aligned rectangle (min-x, min-y, max-x, max-y) derived from the union of
all points across all layers, and is undefined (none) when the document has
zero points. -/
def docBounds (doc : VDocument) : Option Bounds :=
  match allPoints doc with
  | [] => none
  | p :: ps =>
    some (ps.foldl
      (fun b q => ⟨min b.xmin q.1, min b.ymin q.2, max b.xmax q.1, max b.ymax q.2⟩)
      ⟨p.1, p.2, p.1, p.2⟩)

/-- The centering offset computed by `display_matplotlib` (lines 62-71):
zero unless `center` is set and a page size is given; when bounds are defined,
the drawing's bounding box is centered within the page rectangle. -/
def computeOffset (center : Bool) (page_size : Option (ℚ × ℚ))
    (bounds : Option Bounds) : Pt :=
  match center, page_size, bounds with
  | true, some ps, some b =>
    ((ps.1 - (b.xmax - b.xmin)) / 2 - b.xmin,
     (ps.2 - (b.ymax - b.ymin)) / 2 - b.ymin)
  | _, _, _ => (0, 0)

/-- The point transform applied to every rendered coordinate:
`(point + offset) * scale` (lines 90 and 104-105). -/
def transformPoint (scale : ℚ) (offset : Pt) (p : Pt) : Pt :=
  ((p.1 + offset.1) * scale, (p.2 + offset.2) * scale)

/-- A stroke as handed to the line collection: every point of the path
transformed (`vp.as_vector(line + offset) * scale`, line 90). -/
def transformPath (scale : ℚ) (offset : Pt) (p : VPath) : List Pt :=
  p.map (transformPoint scale offset)

/-- The pen-up travel segments of a layer (lines 101-108): for
`i in range(len(lc) - 1)`, a segment from the transformed last point of path
`i` to the transformed first point of path `i + 1`. -/
def penUpSegments (scale : ℚ) (offset : Pt) (lc : VLayer) : List (Pt × Pt) :=
  (List.range (lc.length - 1)).map fun i =>
    (transformPoint scale offset ((lc.getD i []).getLastD (0, 0)),
     transformPoint scale offset ((lc.getD (i + 1) []).headD (0, 0)))

/-- A color handed to a layer's line collection: either a single RGB color
(non-colorful branch, line 83) or a rotated list of colors (colorful branch,
lines 78-80). -/
inductive MplColor where
  | single (c : RGB) : MplColor
  | rotated (cs : List RGB) : MplColor
deriving DecidableEq, Repr

/-- The color handed to a layer when the cursor is `idx` (lines 77-83):
the rotated full palette `COLORS[idx:] + COLORS[:idx]` in colorful mode,
the single entry `COLORS[idx]` otherwise. -/
def layerColor (colorful : Bool) (idx : Nat) : MplColor :=
  if colorful then
    MplColor.rotated (COLORS.drop idx ++ COLORS.take idx)
  else
    MplColor.single (COLORS.getD idx (0, 0, 0))

/-- The cursor advance of one layer with `pathCount` paths (lines 81-86):
`color_idx` grows by the path count (colorful) or by one, then wraps modulo
`len(COLORS)` whenever it reaches the palette length. -/
def nextColorIdx (colorful : Bool) (idx pathCount : Nat) : Nat :=
  let i := idx + (if colorful then pathCount else 1)
  if i ≥ COLORS.length then i % COLORS.length else i

/-- The sequence of colors assigned to successive layers given their path
counts, starting from cursor `idx` (loop of lines 74-86). -/
def assignColors (colorful : Bool) : Nat → List Nat → List MplColor
  | _, [] => []
  | idx, k :: ks => layerColor colorful idx :: assignColors colorful (nextColorIdx colorful idx k) ks

/-- What `display_matplotlib` adds to the axes for one layer: its label, its
color, its transformed strokes, and (when `show_pen_up`) its pen-up segments. -/
structure LayerRender where
  layerId : Nat
  color : MplColor
  lines : List (List Pt)
  penUp : Option (List (Pt × Pt))
deriving DecidableEq, Repr

/-- The per-layer loop of `display_matplotlib` (lines 74-114), carrying the
`color_idx` cursor through the document's layers in iteration order. -/
def renderLayers (colorful show_pen_up : Bool) (offset : Pt) (scale : ℚ) :
    Nat → VDocument → List LayerRender
  | _, [] => []
  | idx, (lid, lc) :: rest =>
    { layerId := lid
      color := layerColor colorful idx
      lines := lc.map (transformPath scale offset)
      penUp := if show_pen_up then some (penUpSegments scale offset lc) else none }
      :: renderLayers colorful show_pen_up offset scale (nextColorIdx colorful idx lc.length) rest

/-- Modelled from the spec: `vp.convert_length` is provided by the external
vpype library, not by this repository.  It maps a recognized unit name to its
conversion factor in pixels (the spec's end-to-end example fixes `px ↦ 1`) and
fails on an unknown unit. -/
def convertLength (u : String) : Option ℚ :=
  if u = "px" then some 1
  else if u = "in" then some 96
  else if u = "mm" then some (96 / 25.4)
  else if u = "cm" then some (96 / 2.54)
  else none

/-- The errors the module can raise: `ValueError` for an unsupported display
mode (line 280), `RuntimeError` when IPython is absent (line 145) — the spec's
`EnvironmentUnavailableError` — and the external converter's error on an
unknown unit — the spec's `UnsupportedUnitError`. -/
inductive DisplayError where
  | unsupportedMode (m : String) : DisplayError
  | environmentUnavailable : DisplayError
  | unsupportedUnit (u : String) : DisplayError
deriving DecidableEq, Repr

/-- The raster scene built by `display_matplotlib`: figure size, the page
frame if any, the shared offset/scale transform, every layer's collection(s),
and the axis/grid configuration (lines 116-127: axes are turned on when
`show_axes or show_grid`, labelled with the unit, and the grid is drawn when
`show_grid`). -/
structure RasterScene where
  figSize : Option (ℚ × ℚ)
  pageFrame : Option (ℚ × ℚ)
  offset : Pt
  scale : ℚ
  layers : List LayerRender
  axesOn : Bool
  axisLabel : Option String
  gridOn : Bool
deriving DecidableEq, Repr

/-- The raster renderer `display_matplotlib` (lines 32-129), returning the
scene it draws; fails when the unit is not convertible. -/
def display_matplotlib (doc : VDocument) (page_size : Option (ℚ × ℚ))
    (center show_axes show_grid show_pen_up colorful : Bool) (unit : String)
    (fig_size : Option (ℚ × ℚ)) : Except DisplayError RasterScene :=
  match convertLength unit with
  | none => Except.error (DisplayError.unsupportedUnit unit)
  | some factor =>
    let scale := 1 / factor
    let offset := computeOffset center page_size (docBounds doc)
    Except.ok
      { figSize := fig_size
        pageFrame := page_size.map (fun ps => (ps.1 * scale, ps.2 * scale))
        offset := offset
        scale := scale
        layers := renderLayers colorful show_pen_up offset scale 0 doc
        axesOn := show_axes || show_grid
        axisLabel := if show_axes || show_grid then some unit else none
        gridOn := show_grid }

/-- The arguments `display_ipython` passes verbatim to the external
`vp.write_svg` serializer (lines 148-155). -/
structure SvgWriteArgs where
  doc : VDocument
  pageSize : ℚ × ℚ
  center : Bool
  showPenUp : Bool
  colorMode : String
deriving DecidableEq, Repr

/-- The markup produced by `display_ipython`: the serializer call, the display
width/height (page size when given, else the document bounds' size, else 0;
lines 159-169), and whether the page-frame decoration is prepended. -/
structure IpyMarkup where
  svgArgs : SvgWriteArgs
  svgWidth : ℚ
  svgHeight : ℚ
  hasPageFrame : Bool
deriving DecidableEq, Repr

/-- The host environment observed by the module: the `COLAB` / `JUPYTERLAB`
flags (from `.environment`) and whether the `IPython` module is loaded
(`"IPython" in sys.modules`, line 144). -/
structure HostEnv where
  colab : Bool
  jupyterlab : Bool
  ipythonPresent : Bool
deriving DecidableEq, Repr

/-- The vector renderer `display_ipython` (lines 132-207): raises when IPython
is absent, before any markup is built; otherwise serializes the document with
page size `(0, 0)` when none is given and wraps it with the display size. -/
def display_ipython (env : HostEnv) (doc : VDocument) (page_size : Option (ℚ × ℚ))
    (center show_pen_up : Bool) (color_mode : String) :
    Except DisplayError IpyMarkup :=
  if env.ipythonPresent = false then
    Except.error DisplayError.environmentUnavailable
  else
    let wh : ℚ × ℚ :=
      match page_size with
      | none =>
        match docBounds doc with
        | some b => (b.xmax - b.xmin, b.ymax - b.ymin)
        | none => (0, 0)
      | some ps => ps
    Except.ok
      { svgArgs :=
          { doc := doc
            pageSize := page_size.getD (0, 0)
            center := center
            showPenUp := show_pen_up
            colorMode := color_mode }
        svgWidth := wh.1
        svgHeight := wh.2
        hasPageFrame := page_size.isSome }

/-- The non-fatal warnings the dispatcher can log before delegating to the
IPython backend (lines 252-262).  The log-message strings are abstracted to
one constructor per option. -/
inductive Warning where
  | showAxesUnsupported : Warning
  | showGridUnsupported : Warning
  | customUnitUnsupported : Warning
  | figSizeUnsupported : Warning
deriving DecidableEq, Repr

/-- The warnings logged for the IPython mode, in source order (lines 252-262):
one for `show_axes` when it is true, one for `show_grid` when it is true, one
for a unit other than `"px"`, one for a present `fig_size`. -/
def ipythonWarnings (show_axes show_grid : Bool) (unit : String)
    (fig_size : Option (ℚ × ℚ)) : List Warning :=
  (if show_axes then [Warning.showAxesUnsupported] else []) ++
  (if show_grid then [Warning.showGridUnsupported] else []) ++
  (if unit ≠ "px" then [Warning.customUnitUnsupported] else []) ++
  (if fig_size.isSome then [Warning.figSizeUnsupported] else [])

/-- Which backend the dispatcher invoked, with that backend's output. -/
inductive BackendCall where
  | matplotlib (scene : RasterScene) : BackendCall
  | ipython (markup : IpyMarkup) : BackendCall
deriving DecidableEq, Repr

/-- The dispatcher's successful outcome: the warnings it logged and the
backend call it made. -/
structure DispatchResult where
  warnings : List Warning
  call : BackendCall
deriving DecidableEq, Repr

/-- The mode selected by the dispatcher (lines 245-249): the explicit mode
when given, else `"ipython"` inside COLAB or JUPYTERLAB and `"matplotlib"`
otherwise. -/
def resolveMode (env : HostEnv) (mode : Option String) : String :=
  match mode with
  | none => if env.colab || env.jupyterlab then "ipython" else "matplotlib"
  | some m => m

/-- The dispatcher `display` (lines 210-280): resolves the mode, then either
warns about unsupported options and delegates to `display_ipython`, or
delegates to `display_matplotlib` with `colorful = (color_mode == "path")`
(line 275), or raises `ValueError` on any other mode. -/
def display (env : HostEnv) (doc : VDocument) (page_size : Option (ℚ × ℚ))
    (center show_axes show_grid show_pen_up : Bool) (color_mode unit : String)
    (mode : Option String) (fig_size : Option (ℚ × ℚ)) :
    Except DisplayError DispatchResult :=
  if resolveMode env mode = "ipython" then
    match display_ipython env doc page_size center show_pen_up color_mode with
    | Except.error e => Except.error e
    | Except.ok markup =>
      Except.ok
        { warnings := ipythonWarnings show_axes show_grid unit fig_size
          call := BackendCall.ipython markup }
  else if resolveMode env mode = "matplotlib" then
    match display_matplotlib doc page_size center show_axes show_grid
        show_pen_up (color_mode == "path") unit fig_size with
    | Except.error e => Except.error e
    | Except.ok scene =>
      Except.ok { warnings := [], call := BackendCall.matplotlib scene }
  else
    Except.error (DisplayError.unsupportedMode (resolveMode env mode))

/-- The per-layer colors of a dispatch outcome's matplotlib scene, `none` for
an IPython call or a failure. -/
def sceneColors : Except DisplayError DispatchResult → Option (List MplColor)
  | Except.ok ⟨_, BackendCall.matplotlib s⟩ => some (s.layers.map LayerRender.color)
  | _ => none

/-- The warnings of a successful dispatch, `none` for a failure. -/
def warningsOf : Except DisplayError DispatchResult → Option (List Warning)
  | Except.ok r => some r.warnings
  | Except.error _ => none

/-- The name of the backend invoked by a successful dispatch. -/
def calledBackend : Except DisplayError DispatchResult → Option String
  | Except.ok ⟨_, BackendCall.matplotlib _⟩ => some "matplotlib"
  | Except.ok ⟨_, BackendCall.ipython _⟩ => some "ipython"
  | Except.error _ => none

/-! ## Helper lemmas -/

theorem getLastD_map_of_ne_nil {α β : Type*} (f : α → β) (d : β) (d' : α)
    (p : List α) (hp : p ≠ []) : (p.map f).getLastD d = f (p.getLastD d') := by
  rw [List.getLastD_eq_getLast?, List.getLastD_eq_getLast?, List.getLast?_map]
  cases h : p.getLast? with
  | none => exact absurd (List.getLast?_eq_none_iff.mp h) hp
  | some a => rfl

theorem headD_map_of_ne_nil {α β : Type*} (f : α → β) (d : β) (d' : α)
    (p : List α) (hp : p ≠ []) : (p.map f).headD d = f (p.headD d') := by
  cases p with
  | nil => exact absurd rfl hp
  | cons a t => rfl

theorem getD_mem_of_lt {α : Type*} (l : List α) (i : Nat) (d : α)
    (h : i < l.length) : l.getD i d ∈ l := by
  rw [List.getD_eq_getElem?_getD, List.getElem?_eq_getElem h]
  exact List.getElem_mem h

/-- The cursor advance `nextColorIdx` is plain addition modulo the palette
length. -/
theorem nextColorIdx_mod (colorful : Bool) (idx k : Nat) :
    nextColorIdx colorful idx k
      = (idx + (if colorful then k else 1)) % COLORS.length := by
  show (if idx + (if colorful then k else 1) ≥ COLORS.length
        then (idx + (if colorful then k else 1)) % COLORS.length
        else idx + (if colorful then k else 1))
      = (idx + (if colorful then k else 1)) % COLORS.length
  by_cases h : idx + (if colorful then k else 1) ≥ COLORS.length
  · rw [if_pos h]
  · rw [if_neg h]
    exact (Nat.mod_eq_of_lt (by omega)).symm

/-- The cursor stays below the palette length after every advance. -/
theorem nextColorIdx_lt (colorful : Bool) (idx k : Nat) :
    nextColorIdx colorful idx k < COLORS.length := by
  rw [nextColorIdx_mod]
  exact Nat.mod_lt _ (by decide)

/-- The colors of the rendered layers are `assignColors` over the layers' path
counts. -/
theorem renderLayers_colors (colorful pu : Bool) (offset : Pt) (scale : ℚ) :
    ∀ (idx : Nat) (doc : VDocument),
      (renderLayers colorful pu offset scale idx doc).map LayerRender.color
        = assignColors colorful idx (doc.map (fun l => l.2.length))
  | _, [] => rfl
  | idx, (lid, lc) :: rest => by
    simp only [renderLayers, assignColors, List.map_cons]
    exact congrArg _ (renderLayers_colors colorful pu offset scale _ rest)

/-- In single-color (non-colorful) mode, the `k`-th assigned color is palette
entry `(idx + k) mod 8`. -/
theorem assignColors_single_get :
    ∀ (ks : List Nat) (idx k : Nat), idx < COLORS.length →
      (assignColors false idx ks)[k]?
        = if k < ks.length then
            some (MplColor.single (COLORS.getD ((idx + k) % COLORS.length) (0, 0, 0)))
          else none
  | [], idx, k, _ => by simp [assignColors]
  | k0 :: ks, idx, 0, hidx => by
    rw [if_pos (by simp)]
    rw [show assignColors false idx (k0 :: ks)
          = layerColor false idx :: assignColors false (nextColorIdx false idx k0) ks from rfl]
    rw [List.getElem?_cons_zero, Nat.add_zero, Nat.mod_eq_of_lt hidx]
    rfl
  | k0 :: ks, idx, k + 1, hidx => by
    have hnext : nextColorIdx false idx k0 = (idx + 1) % COLORS.length := by
      rw [nextColorIdx_mod]; rfl
    have ih := assignColors_single_get ks ((idx + 1) % COLORS.length) k
      (Nat.mod_lt _ (by decide))
    rw [show assignColors false idx (k0 :: ks)
          = layerColor false idx :: assignColors false (nextColorIdx false idx k0) ks from rfl]
    rw [List.getElem?_cons_succ, hnext, ih]
    by_cases hk : k < ks.length
    · rw [if_pos hk, if_pos (by simp only [List.length_cons]; omega)]
      have harith : ((idx + 1) % COLORS.length + k) % COLORS.length
          = (idx + (k + 1)) % COLORS.length := by
        have h8 : COLORS.length = 8 := rfl
        rw [h8]; omega
      rw [harith]
    · rw [if_neg hk, if_neg (by simp only [List.length_cons]; omega)]

/-- Prefix independence of color assignment: assignments agree as far as the
path-count lists agree. -/
theorem assignColors_take (colorful : Bool) :
    ∀ (n idx : Nat) (ks1 ks2 : List Nat), ks1.take n = ks2.take n →
      (assignColors colorful idx ks1).take n = (assignColors colorful idx ks2).take n
  | 0, _, _, _, _ => rfl
  | n + 1, idx, [], [], _ => rfl
  | n + 1, idx, [], k2 :: t2, h => by
    rw [List.take_nil, List.take_succ_cons] at h
    exact absurd h (by simp)
  | n + 1, idx, k1 :: t1, [], h => by
    rw [List.take_nil, List.take_succ_cons] at h
    exact absurd h (by simp)
  | n + 1, idx, k1 :: t1, k2 :: t2, h => by
    simp only [List.take_succ_cons, List.cons.injEq] at h
    obtain ⟨hk, ht⟩ := h
    subst hk
    show (layerColor colorful idx :: assignColors colorful (nextColorIdx colorful idx k1) t1).take (n + 1)
        = (layerColor colorful idx :: assignColors colorful (nextColorIdx colorful idx k1) t2).take (n + 1)
    rw [List.take_succ_cons, List.take_succ_cons]
    exact congrArg _ (assignColors_take colorful n (nextColorIdx colorful idx k1) t1 t2 ht)

/-! ## Claim theorems -/

/-- C1: for every document, page size, centering flag and unit: when
`center` is true, a page size is given and the document's bounds are defined,
the raster renderer's offset is
`((pageWidth - boundsWidth)/2 - boundsMinX, (pageHeight - boundsHeight)/2 - boundsMinY)`
— equivalently, the bounds' center shifted by the offset is the page center —
and the offset is exactly `(0, 0)` whenever `center` is false, the page size
is absent, or the bounds are undefined. -/
theorem offset_centering (doc : VDocument) (center : Bool) (ps? : Option (ℚ × ℚ)) :
    (∀ P b, center = true → ps? = some P → docBounds doc = some b →
      computeOffset center ps? (docBounds doc)
          = ((P.1 - (b.xmax - b.xmin)) / 2 - b.xmin,
             (P.2 - (b.ymax - b.ymin)) / 2 - b.ymin)
        ∧ (b.xmin + b.xmax) / 2 + (computeOffset center ps? (docBounds doc)).1 = P.1 / 2
        ∧ (b.ymin + b.ymax) / 2 + (computeOffset center ps? (docBounds doc)).2 = P.2 / 2)
    ∧ (center = false ∨ ps? = none ∨ docBounds doc = none →
        computeOffset center ps? (docBounds doc) = (0, 0)) := by
  cases hB : docBounds doc with
  | none =>
    constructor
    · rintro P b _ _ hb
      exact absurd hb (by simp)
    · intro _
      cases center <;> cases ps? <;> rfl
  | some b0 =>
    cases center with
    | false =>
      constructor
      · rintro P b hc _ _
        exact absurd hc (by simp)
      · intro _
        cases ps? <;> rfl
    | true =>
      cases ps? with
      | none =>
        constructor
        · rintro P b _ hps _
          exact absurd hps (by simp)
        · intro _
          rfl
      | some P0 =>
        constructor
        · rintro P b _ hps hb
          injection hps with hps
          injection hb with hb
          subst hps
          subst hb
          refine ⟨rfl, ?_, ?_⟩
          · show (b0.xmin + b0.xmax) / 2 + ((P0.1 - (b0.xmax - b0.xmin)) / 2 - b0.xmin)
                = P0.1 / 2
            ring
          · show (b0.ymin + b0.ymax) / 2 + ((P0.2 - (b0.ymax - b0.ymin)) / 2 - b0.ymin)
                = P0.2 / 2
            ring
        · rintro (hc | hps | hb)
          · exact absurd hc (by simp)
          · exact absurd hps (by simp)
          · exact absurd hb (by simp)

/-- Witness for `offset_centering`: the spec's end-to-end example — a one-layer
document with paths `[(0,0),(1,1)]` and `[(2,2),(3,3)]` on a `10 × 10` page has
bounds `(0,0,3,3)` and centering offset `(7/2, 7/2) = (3.5, 3.5)`. -/
theorem offset_centering_witness :
    docBounds [(1, [[(0, 0), (1, 1)], [(2, 2), (3, 3)]])] = some ⟨0, 0, 3, 3⟩
    ∧ computeOffset true (some (10, 10))
        (docBounds [(1, [[(0, 0), (1, 1)], [(2, 2), (3, 3)]])]) = (7/2, 7/2) := by
  have h := (offset_centering [(1, [[(0, 0), (1, 1)], [(2, 2), (3, 3)]])] true
      (some (10, 10))).1 (10, 10) ⟨0, 0, 3, 3⟩ rfl rfl (by decide)
  exact ⟨by decide, by rw [h.1]; norm_num⟩

/-- C2 (evaluation at the failing input): rendering a two-layer document in
color mode `none` through the matplotlib backend does *not* use one single
fixed neutral color — the dispatcher translates `none` to `colorful = false`
exactly like mode `layer` (line 275), so the first layer is drawn in palette
color 0 (blue) and the second in palette color 1 (green), and the palette
cursor advances between layers, contradicting the docstring
"none (everything is black and white)" (line 238). -/
theorem colormode_none_still_cycles :
    sceneColors (display ⟨false, false, false⟩ [(1, [[(0, 0)]]), (2, [[(0, 0)]])] none
        false false false false "none" "px" (some "matplotlib") none)
      = some [MplColor.single (COLORS.getD 0 (0, 0, 0)),
              MplColor.single (COLORS.getD 1 (0, 0, 0))]
    ∧ COLORS.getD 0 (0, 0, 0) = (0, 0, 1)
    ∧ COLORS.getD 1 (0, 0, 0) = (0, 1/2, 0)
    ∧ MplColor.single (COLORS.getD 0 (0, 0, 0))
        ≠ MplColor.single (COLORS.getD 1 (0, 0, 0)) := by
  refine ⟨rfl, rfl, ?_, ?_⟩
  · norm_num [COLORS, List.getD_cons_succ, List.getD_cons_zero]
  · intro h
    injection h with h
    rw [show COLORS.getD 0 (0, 0, 0) = ((0 : ℚ), (0 : ℚ), (1 : ℚ)) from rfl,
      show COLORS.getD 1 (0, 0, 0) = ((0 : ℚ), (1/2 : ℚ), (0 : ℚ)) from by
        norm_num [COLORS, List.getD_cons_succ, List.getD_cons_zero]] at h
    rw [Prod.mk.injEq, Prod.mk.injEq] at h
    exact absurd h.2.2 (by norm_num)

/-- C3: for a layer with `K` nonempty paths rendered with `show_pen_up`,
exactly `max(0, K-1)` pen-up segments are produced (`K - 1` in truncated
natural subtraction), the `i`-th segment connecting the last point of path `i`
to the first point of path `i + 1`, both endpoints transformed by the same
offset-then-scale transform (`transformPoint`, applied by `transformPath` to
regular strokes). -/
theorem penup_segments_spec (scale : ℚ) (offset : Pt) (lc : VLayer)
    (hne : ∀ p ∈ lc, p ≠ []) :
    (penUpSegments scale offset lc).length = lc.length - 1
    ∧ ∀ i, i + 1 < lc.length →
        (penUpSegments scale offset lc).getD i ((0, 0), (0, 0))
          = ((transformPath scale offset (lc.getD i [])).getLastD (0, 0),
             (transformPath scale offset (lc.getD (i + 1) [])).headD (0, 0)) := by
  constructor
  · simp [penUpSegments]
  · intro i hi
    have hi' : i < lc.length - 1 := by omega
    have h1 : (penUpSegments scale offset lc).getD i ((0, 0), (0, 0))
        = (transformPoint scale offset ((lc.getD i []).getLastD (0, 0)),
           transformPoint scale offset ((lc.getD (i + 1) []).headD (0, 0))) := by
      unfold penUpSegments
      rw [List.getD_eq_getElem?_getD, List.getElem?_map, List.getElem?_range hi']
      rfl
    rw [h1]
    have hmem1 : lc.getD i [] ∈ lc := getD_mem_of_lt lc i [] (by omega)
    have hmem2 : lc.getD (i + 1) [] ∈ lc := getD_mem_of_lt lc (i + 1) [] hi
    simp only [transformPath]
    rw [getLastD_map_of_ne_nil (transformPoint scale offset) (0, 0) (0, 0) _ (hne _ hmem1),
      headD_map_of_ne_nil (transformPoint scale offset) (0, 0) (0, 0) _ (hne _ hmem2)]

/-- Witness for `penup_segments_spec`: the layer with paths `[(0,0),(1,1)]` and
`[(2,2),(3,3)]` under offset `(3.5, 3.5)` and scale 1 has exactly one pen-up
segment, from `(4.5, 4.5)` (transformed `(1,1)`) to `(5.5, 5.5)`
(transformed `(2,2)`). -/
theorem penup_segments_witness :
    (penUpSegments 1 (7/2, 7/2) [[(0, 0), (1, 1)], [(2, 2), (3, 3)]]).length = 1
    ∧ (penUpSegments 1 (7/2, 7/2) [[(0, 0), (1, 1)], [(2, 2), (3, 3)]]).getD 0 ((0, 0), (0, 0))
        = ((9/2, 9/2), (11/2, 11/2)) := by
  have h := penup_segments_spec 1 (7/2, 7/2) [[(0, 0), (1, 1)], [(2, 2), (3, 3)]] (by decide)
  refine ⟨h.1, ?_⟩
  rw [h.2 0 (by decide)]
  norm_num [transformPath, transformPoint, List.getD_cons_zero, List.getD_cons_succ,
    List.getLastD, List.headD]

/-- C4: in color mode `layer` (non-colorful), the `k`-th rendered layer
(0-based, in document iteration order) receives the single palette color
`k mod 8`.  Determinism across repeated calls is inherent: the cursor is the
function-local `color_idx` starting at 0 in every call, so the assignment is a
pure function of the document. -/
theorem layer_mode_colors (doc : VDocument) (pu : Bool) (offset : Pt) (scale : ℚ)
    (k : Nat) (lr : LayerRender)
    (hk : (renderLayers false pu offset scale 0 doc)[k]? = some lr) :
    lr.color = MplColor.single (COLORS.getD (k % COLORS.length) (0, 0, 0)) := by
  have h1 : ((renderLayers false pu offset scale 0 doc).map LayerRender.color)[k]?
      = some lr.color := by
    rw [List.getElem?_map, hk]
    rfl
  rw [renderLayers_colors] at h1
  rw [assignColors_single_get (doc.map (fun l => l.2.length)) 0 k (by decide)] at h1
  rcases Decidable.em (k < (doc.map (fun l => l.2.length)).length) with hlt | hlt
  · rw [if_pos hlt] at h1
    injection h1 with h1
    rw [← h1, Nat.zero_add]
  · rw [if_neg hlt] at h1
    exact absurd h1 (by simp)

/-- Witness for `layer_mode_colors`: in a nine-layer document the ninth layer
(index 8) wraps around the palette and receives color `8 mod 8 = 0`, blue. -/
theorem layer_mode_colors_witness :
    (LayerRender.mk 9 (MplColor.single (COLORS.getD 0 (0, 0, 0))) [] none).color
      = MplColor.single (COLORS.getD (8 % COLORS.length) (0, 0, 0)) :=
  layer_mode_colors
    [(1, []), (2, []), (3, []), (4, []), (5, []), (6, []), (7, []), (8, []), (9, [])]
    false (0, 0) 1 8 (LayerRender.mk 9 (MplColor.single (COLORS.getD 0 (0, 0, 0))) [] none)
    rfl

/-- C5: in color mode `path` (colorful), every layer receives the full
8-color palette rotated to start at the current cursor (a list of length 8
regardless of the layer's path count `K`), the cursor then advances by `K`
modulo 8, and the assignment is prefix-independent: two documents whose
per-layer path counts agree on the first `n` layers get identical colors on
those `n` layers. -/
theorem path_mode_rotation_and_independence :
    (∀ idx K, idx < COLORS.length →
      layerColor true idx = MplColor.rotated (COLORS.drop idx ++ COLORS.take idx)
      ∧ (COLORS.drop idx ++ COLORS.take idx).length = COLORS.length
      ∧ nextColorIdx true idx K = (idx + K) % COLORS.length)
    ∧ ∀ (pu : Bool) (offset : Pt) (scale : ℚ) (n idx : Nat) (d1 d2 : VDocument),
        (d1.map (fun l => l.2.length)).take n = (d2.map (fun l => l.2.length)).take n →
        ((renderLayers true pu offset scale idx d1).map LayerRender.color).take n
          = ((renderLayers true pu offset scale idx d2).map LayerRender.color).take n := by
  constructor
  · intro idx K h
    refine ⟨rfl, ?_, ?_⟩
    · rw [List.length_append, List.length_drop, List.length_take,
        Nat.min_eq_left (Nat.le_of_lt h)]
      omega
    · rw [nextColorIdx_mod]
      rfl
  · intro pu offset scale n idx d1 d2 h
    rw [renderLayers_colors, renderLayers_colors]
    exact assignColors_take true n idx _ _ h

/-- Witness for `path_mode_rotation_and_independence`: at cursor 3 the rotated
palette keeps length 8 and a 13-path layer advances the cursor to
`(3 + 13) mod 8 = 0`; and two documents whose first layers both hold one path
receive the same color on that first layer even though their second layers
differ. -/
theorem path_mode_witness :
    (3 < COLORS.length
      ∧ (COLORS.drop 3 ++ COLORS.take 3).length = COLORS.length
      ∧ nextColorIdx true 3 13 = (3 + 13) % COLORS.length)
    ∧ ((renderLayers true false (0, 0) 1 0 [(1, [[(0, 0)]]), (2, [])]).map
          LayerRender.color).take 1
        = ((renderLayers true false (0, 0) 1 0 [(1, [[(0, 0)]]), (3, [[], []])]).map
          LayerRender.color).take 1 := by
  have h := path_mode_rotation_and_independence
  exact ⟨⟨by decide, (h.1 3 13 (by decide)).2.1, (h.1 3 13 (by decide)).2.2⟩,
    h.2 false (0, 0) 1 1 0 [(1, [[(0, 0)]]), (2, [])] [(1, [[(0, 0)]]), (3, [[], []])] rfl⟩

/-- C6: with no explicit mode, the dispatcher resolves to the ipython
(vector) backend exactly when COLAB or JUPYTERLAB is set and to the matplotlib
(raster) backend otherwise; dispatching with no mode equals dispatching with
the resolved mode made explicit; and an explicit supported mode invokes
exactly that backend. -/
theorem dispatcher_mode_selection (env : HostEnv) (doc : VDocument)
    (ps : Option (ℚ × ℚ)) (c sa sg spu : Bool) (cm u : String)
    (fs : Option (ℚ × ℚ)) :
    (resolveMode env none = "ipython" ↔ (env.colab || env.jupyterlab) = true)
    ∧ (resolveMode env none = "matplotlib" ↔ (env.colab || env.jupyterlab) = false)
    ∧ (∀ m, resolveMode env (some m) = m)
    ∧ display env doc ps c sa sg spu cm u none fs
        = display env doc ps c sa sg spu cm u (some (resolveMode env none)) fs
    ∧ (∀ res, display env doc ps c sa sg spu cm u (some "matplotlib") fs = Except.ok res
        → calledBackend (Except.ok res) = some "matplotlib")
    ∧ (∀ res, display env doc ps c sa sg spu cm u (some "ipython") fs = Except.ok res
        → calledBackend (Except.ok res) = some "ipython") := by
  refine ⟨?_, ?_, fun m => rfl, rfl, ?_, ?_⟩
  · cases hcj : env.colab || env.jupyterlab <;> simp [resolveMode, hcj]
  · cases hcj : env.colab || env.jupyterlab <;> simp [resolveMode, hcj]
  · intro res h
    rw [show display env doc ps c sa sg spu cm u (some "matplotlib") fs
        = (match display_matplotlib doc ps c sa sg spu (cm == "path") u fs with
           | Except.error e => Except.error e
           | Except.ok scene => Except.ok ⟨[], BackendCall.matplotlib scene⟩) from by
      unfold display
      rw [show resolveMode env (some "matplotlib") = "matplotlib" from rfl,
        if_neg (by decide : ¬("matplotlib" : String) = "ipython"),
        if_pos (rfl : ("matplotlib" : String) = "matplotlib")]] at h
    cases hm : display_matplotlib doc ps c sa sg spu (cm == "path") u fs with
    | error e => rw [hm] at h; exact absurd h (by simp)
    | ok scene =>
      rw [hm] at h
      injection h with h
      rw [← h]
      rfl
  · intro res h
    rw [show display env doc ps c sa sg spu cm u (some "ipython") fs
        = (match display_ipython env doc ps c spu cm with
           | Except.error e => Except.error e
           | Except.ok markup =>
              Except.ok ⟨ipythonWarnings sa sg u fs, BackendCall.ipython markup⟩) from by
      unfold display
      rw [show resolveMode env (some "ipython") = "ipython" from rfl,
        if_pos (rfl : ("ipython" : String) = "ipython")]] at h
    cases hm : display_ipython env doc ps c spu cm with
    | error e => rw [hm] at h; exact absurd h (by simp)
    | ok markup =>
      rw [hm] at h
      injection h with h
      rw [← h]
      rfl

/-- Witness for `dispatcher_mode_selection`: inside COLAB the unset mode
resolves to ipython, and an explicit matplotlib mode invokes the matplotlib
backend. -/
theorem dispatcher_mode_selection_witness :
    resolveMode ⟨true, false, true⟩ none = "ipython"
    ∧ calledBackend (display ⟨true, false, true⟩ [] none false false false false "layer" "px"
        (some "matplotlib") none) = some "matplotlib" := by
  have h := dispatcher_mode_selection ⟨true, false, true⟩ [] none false false false false
    "layer" "px" none
  have hd : display ⟨true, false, true⟩ [] none false false false false "layer" "px"
      (some "matplotlib") none
      = Except.ok ⟨[], BackendCall.matplotlib
          (RasterScene.mk none none (0, 0) (1/1) [] false none false)⟩ := rfl
  refine ⟨h.1.mpr rfl, ?_⟩
  rw [hd]
  exact h.2.2.2.2.1 _ hd

/-- C7: when IPython is absent from the process, requesting (or resolving
to) the ipython backend fails with the environment error before any markup is
built — `display_ipython` raises on its very first step and the dispatcher
propagates the error, producing no `IpyMarkup` output. -/
theorem ipython_absent_error (env : HostEnv) (doc : VDocument) (ps : Option (ℚ × ℚ))
    (c sa sg spu : Bool) (cm u : String) (mode : Option String) (fs : Option (ℚ × ℚ))
    (habs : env.ipythonPresent = false) (hmode : resolveMode env mode = "ipython") :
    display_ipython env doc ps c spu cm = Except.error DisplayError.environmentUnavailable
    ∧ display env doc ps c sa sg spu cm u mode fs
        = Except.error DisplayError.environmentUnavailable := by
  have h1 : display_ipython env doc ps c spu cm
      = Except.error DisplayError.environmentUnavailable := by
    unfold display_ipython
    rw [if_pos habs]
  refine ⟨h1, ?_⟩
  unfold display
  rw [if_pos hmode, h1]

/-- Witness for `ipython_absent_error`: an explicit ipython request outside
IPython fails with the environment error. -/
theorem ipython_absent_error_witness :
    display ⟨false, false, false⟩ [] none false false false false "layer" "px"
        (some "ipython") none
      = Except.error DisplayError.environmentUnavailable :=
  (ipython_absent_error ⟨false, false, false⟩ [] none false false false false "layer" "px"
    (some "ipython") none rfl rfl).2

/-- C8: any explicit mode other than "ipython" and "matplotlib" makes the
dispatcher fail with the unsupported-mode error; neither backend is invoked
(the result is an error, not a `DispatchResult`). -/
theorem unsupported_mode_error (env : HostEnv) (doc : VDocument) (ps : Option (ℚ × ℚ))
    (c sa sg spu : Bool) (cm u : String) (fs : Option (ℚ × ℚ)) (m : String)
    (h1 : m ≠ "ipython") (h2 : m ≠ "matplotlib") :
    display env doc ps c sa sg spu cm u (some m) fs
      = Except.error (DisplayError.unsupportedMode m) := by
  unfold display
  rw [show resolveMode env (some m) = m from rfl, if_neg h1, if_neg h2]

/-- Witness for `unsupported_mode_error`: mode "webgl" is rejected. -/
theorem unsupported_mode_error_witness :
    display ⟨false, false, true⟩ [] none false false false false "layer" "px"
        (some "webgl") none
      = Except.error (DisplayError.unsupportedMode "webgl") :=
  unsupported_mode_error ⟨false, false, true⟩ [] none false false false false "layer" "px"
    none "webgl" (by decide) (by decide)

/-- C9 counterexample: `show_axes` defaults to `true` (line 214), so
`show_axes = false` is a *non-default* value of an option the vector backend
cannot honor — yet the dispatcher emits *zero* warnings for it (the warning
fires when `show_axes` is true, i.e. at its default, lines 252-253).  The
claim "each unsupported option set to a non-default value is reported as
exactly one warning" is therefore false: here every unsupported option holds a
non-default value for which the claim demands a warning where applicable
(`show_axes = false`), yet the warning list is empty while rendering still
succeeds. -/
theorem vector_warnings_counterexample :
    warningsOf (display ⟨false, false, true⟩ [] none false false false false "layer" "px"
        (some "ipython") none) = some []
    ∧ calledBackend (display ⟨false, false, true⟩ [] none false false false false "layer" "px"
        (some "ipython") none) = some "ipython" := by
  exact ⟨rfl, rfl⟩

/-- C9 (amended): when the vector backend is chosen and IPython is
present, the dispatcher emits exactly one warning for each unsupported option
that is *set* (not "set to a non-default value"): one when `show_axes` is true
(its default!), one when `show_grid` is true, one when the unit differs from
"px", one when a figure size is given — and rendering still proceeds to
produce the markup. -/
theorem vector_mode_warnings (env : HostEnv) (doc : VDocument) (ps : Option (ℚ × ℚ))
    (c sa sg spu : Bool) (cm u : String) (fs : Option (ℚ × ℚ))
    (hip : env.ipythonPresent = true) :
    (∃ markup, display env doc ps c sa sg spu cm u (some "ipython") fs
        = Except.ok ⟨ipythonWarnings sa sg u fs, BackendCall.ipython markup⟩)
    ∧ (ipythonWarnings sa sg u fs).count Warning.showAxesUnsupported
        = (if sa = true then 1 else 0)
    ∧ (ipythonWarnings sa sg u fs).count Warning.showGridUnsupported
        = (if sg = true then 1 else 0)
    ∧ (ipythonWarnings sa sg u fs).count Warning.customUnitUnsupported
        = (if u ≠ "px" then 1 else 0)
    ∧ (ipythonWarnings sa sg u fs).count Warning.figSizeUnsupported
        = (if fs.isSome then 1 else 0) := by
  have h0 : ∃ markup, display_ipython env doc ps c spu cm = Except.ok markup := by
    unfold display_ipython
    rw [hip]
    exact ⟨_, rfl⟩
  obtain ⟨markup, hm⟩ := h0
  refine ⟨⟨markup, ?_⟩, ?_⟩
  · unfold display
    rw [show resolveMode env (some "ipython") = "ipython" from rfl,
      if_pos (rfl : ("ipython" : String) = "ipython"), hm]
  · cases sa <;> cases sg <;> rcases fs with - | f <;> by_cases hu : u = "px" <;>
      simp [ipythonWarnings, hu, List.count_append, List.count_cons, List.count_nil]

/-- Witness for `vector_mode_warnings`: an explicit ipython render with
`show_axes = true` (and everything else at unsupported-free values) emits
exactly the single show-axes warning and still produces markup. -/
theorem vector_mode_warnings_witness :
    (⟨false, false, true⟩ : HostEnv).ipythonPresent = true
    ∧ ∃ markup, display ⟨false, false, true⟩ [] none false true false false "layer" "px"
        (some "ipython") none
        = Except.ok ⟨[Warning.showAxesUnsupported], BackendCall.ipython markup⟩ := by
  have h := vector_mode_warnings ⟨false, false, true⟩ [] none false true false false
    "layer" "px" none rfl
  obtain ⟨⟨markup, hm⟩, -⟩ := h
  exact ⟨rfl, ⟨markup, hm⟩⟩

/-- C10: in the raster backend the axes are turned on (with the unit
label) whenever `show_axes` *or* `show_grid` is true — so `show_grid = true`
forces the axes on even with `show_axes = false` — and they are hidden only
when both are false. -/
theorem grid_forces_axes (doc : VDocument) (ps : Option (ℚ × ℚ))
    (c sa sg spu colorful : Bool) (u : String) (fs : Option (ℚ × ℚ))
    (s : RasterScene)
    (h : display_matplotlib doc ps c sa sg spu colorful u fs = Except.ok s) :
    s.axesOn = (sa || sg) ∧ s.axisLabel.isSome = (sa || sg) ∧ s.gridOn = sg := by
  unfold display_matplotlib at h
  cases hc : convertLength u with
  | none => rw [hc] at h; exact absurd h (by simp)
  | some f =>
    rw [hc] at h
    injection h with h
    subst h
    refine ⟨rfl, ?_, rfl⟩
    cases sa <;> cases sg <;> rfl

/-- Witness for `grid_forces_axes`: with `show_axes = false` and
`show_grid = true` the axes end up on, labelled with the unit. -/
theorem grid_forces_axes_witness :
    (RasterScene.mk none none (0, 0) (1/1) [] true (some "px") true).axesOn = (false || true)
    ∧ (RasterScene.mk none none (0, 0) (1/1) [] true (some "px") true).axisLabel.isSome
        = (false || true)
    ∧ (RasterScene.mk none none (0, 0) (1/1) [] true (some "px") true).gridOn = true :=
  grid_forces_axes [] none false false true false false "px" none
    (RasterScene.mk none none (0, 0) (1/1) [] true (some "px") true) rfl
